import Mathlib

/-!
# Verification of the DateMapz backend core logic

Shallow embedding of the decision logic of the DateMapz backend
(src/backend/server.js and the related server revisions in src/unnamed/):
the search-parameter deriver, the candidate location finder with its
sufficiency gate and address-keyed deduplication, the plan assembler
(stable sort by stop number and travel-leg attachment), the JSON-blob
sanitization stage, and the request-field validation.

External collaborators (the Google Places client and the generative AI
client) are modelled as oracle parameters: the finder takes a function
from search parameters to place lists, exactly the data the adapter
returns after its error containment.
-/

namespace DateMapz

/-! ## JavaScript value model

JSON values as they appear in a request body or in the parsed AI output.
JSON numbers are exact decimals, modelled as rationals. -/

/-- A JSON/JavaScript value: number, string, boolean, null, or undefined
(absent field). -/
inductive JVal where
  | jnum (q : ℚ)
  | jstr (s : String)
  | jbool (b : Bool)
  | jnull
  | jundef
deriving DecidableEq

/-- JavaScript truthiness: 0, the empty string, false, null and undefined
are falsy; every other value is truthy. (JSON cannot carry NaN, so the
NaN-falsy case does not arise for request-body values.) -/
def jsTruthy : JVal → Bool
  | .jnum q => decide (q ≠ 0)
  | .jstr s => decide (s ≠ "")
  | .jbool b => b
  | .jnull => false
  | .jundef => false

/-- Result of coercing a value to a JavaScript number: a finite value,
one of the two infinities, or NaN. -/
inductive JsNum where
  | fin (q : ℚ)
  | inf
  | neginf
  | nan
deriving DecidableEq

/-- JavaScript isNaN on an already-coerced number: true only for NaN.
This is the check used by the sanitization filter in server.js. -/
def jsIsNaN : JsNum → Bool
  | .nan => true
  | _ => false

/-- JavaScript Number.isFinite on an already-coerced number: true only
for finite values (infinities and NaN are not finite). -/
def jsIsFinite : JsNum → Bool
  | .fin _ => true
  | _ => false

/-- Value of a list of decimal digit characters, most significant first. -/
def digitsToNat (cs : List Char) : Nat :=
  cs.foldl (fun n c => 10 * n + (c.toNat - 48)) 0

/-- JavaScript parseFloat on a string, for the fragment relevant to this
program: optional leading ASCII whitespace, an optional sign, then either
the literal Infinity or a decimal literal (digits, optional fraction,
optional exponent). Any other string yields NaN, matching the behaviour
of parseFloat of returning NaN when no numeric prefix exists. -/
def parseFloatStr (s : String) : JsNum :=
  let cs := s.data.dropWhile fun c => c = ' ' ∨ c = '\t' ∨ c = '\n' ∨ c = '\r'
  let signed : Bool × List Char :=
    match cs with
    | '-' :: rest => (true, rest)
    | '+' :: rest => (false, rest)
    | _ => (false, cs)
  let neg := signed.1
  let cs := signed.2
  if List.isPrefixOf "Infinity".data cs then
    if neg then .neginf else .inf
  else
    let intPart := cs.takeWhile Char.isDigit
    let cs1 := cs.dropWhile Char.isDigit
    let fracSplit : List Char × List Char :=
      match cs1 with
      | '.' :: rest => (rest.takeWhile Char.isDigit, rest.dropWhile Char.isDigit)
      | _ => ([], cs1)
    let fracPart := fracSplit.1
    let cs2 := fracSplit.2
    if intPart.isEmpty && fracPart.isEmpty then .nan
    else
      let mantissa : ℚ :=
        (digitsToNat intPart : ℚ) + (digitsToNat fracPart : ℚ) / ((10 : ℚ) ^ fracPart.length)
      let exp : Int :=
        match cs2 with
        | 'e' :: rest | 'E' :: rest =>
          let esigned : Bool × List Char :=
            match rest with
            | '-' :: r => (true, r)
            | '+' :: r => (false, r)
            | _ => (false, rest)
          let eds := esigned.2.takeWhile Char.isDigit
          if eds.isEmpty then 0
          else if esigned.1 then -(digitsToNat eds : Int) else (digitsToNat eds : Int)
        | _ => 0
      let v := mantissa * (10 : ℚ) ^ exp
      .fin (if neg then -v else v)

/-- JavaScript parseFloat applied to a JSON value: numbers pass through,
strings are parsed, and every other value (whose string form has no
numeric prefix) yields NaN. -/
def parseFloat : JVal → JsNum
  | .jnum q => .fin q
  | .jstr s => parseFloatStr s
  | .jbool _ => .nan
  | .jnull => .nan
  | .jundef => .nan

/-- JavaScript toLowerCase, on the ASCII fragment exercised by the
program (vibe and transport-mode strings). -/
def jsToLower (s : String) : String :=
  ⟨s.data.map Char.toLower⟩

/-! ## Search parameter deriver (server.js lines 280-310, same in the
first revision at lines 23-43 and 192-213) -/

/-- getRadiusFromTransport from server.js: case-insensitive switch over
the transport mode, with default 3000. -/
def getRadiusFromTransport (transportMode : String) : Nat :=
  let m := jsToLower transportMode
  if m = "walking" then 2000
  else if m = "transit" then 5000
  else if m = "driving" then 10000
  else 3000

/-- getKeywordFromVibe from server.js lines 289-310: case-insensitive
switch over the vibe, in two tables selected by the isAdult flag, with a
fallback keyword per table. -/
def getKeywordFromVibe (dateVibe : String) (isAdult : Bool) : String :=
  let vibe := jsToLower dateVibe
  if isAdult then
    if vibe = "romantic" then "romantic restaurant OR scenic viewpoint OR cocktail lounge OR wine bar"
    else if vibe = "adventurous" then "axe throwing OR escape room OR rock climbing OR live music venue OR go karting"
    else if vibe = "artsy" then "art gallery OR museum OR theatre OR live music venue OR comedy club"
    else if vibe = "foodie" then "gourmet restaurant OR brewery OR distillery OR unique dining OR gastropub"
    else if vibe = "casual" then "pub OR bar OR lounge OR beer garden OR sports bar"
    else "bar OR lounge OR point of interest"
  else
    if vibe = "romantic" then "romantic restaurant OR scenic viewpoint OR cozy cafe OR beautiful park"
    else if vibe = "adventurous" then "adventure OR escape room OR rock climbing OR hiking trail OR outdoor activity OR go karting"
    else if vibe = "artsy" then "art gallery OR museum OR public art OR sculpture OR theatre"
    else if vibe = "foodie" then "gourmet restaurant OR food market OR unique dining OR top rated food"
    else if vibe = "casual" then "cafe OR lounge OR park OR casual dining OR board game cafe"
    else "point of interest"

/-! ## Place records and the candidate map

performGoogleSearch (server.js lines 322-343) returns records with name,
address (the vicinity field, possibly absent), coordinates and an
app-specific type. The candidate map (server.js lines 356-361, 379-383)
is a JavaScript Map keyed by address: insertion-ordered, first write
wins, and a record is only inserted when its address is truthy. The map
is modelled as the insertion-ordered list of its values. -/

/-- A place record as produced by performGoogleSearch. The address comes
from the vicinity field of the provider response and may be absent. -/
structure Place where
  name : String
  address : Option String
  lat : ℚ
  lng : ℚ
  type : String
deriving DecidableEq

/-- Truthiness of the address field: an absent or empty address is
falsy, any other string is truthy. This is the check place.address in
the insertion guard. -/
def truthyAddr : Option String → Bool
  | none => false
  | some s => decide (s ≠ "")

/-- candidatePlaces.has(place.address): whether the map already holds an
entry with this address. -/
def hasAddr (m : List Place) (a : Option String) : Bool :=
  m.any fun q => decide (q.address = a)

/-- One iteration of the insertion loop: insert the place at the end of
the map when its address is truthy and not already a key, otherwise
leave the map unchanged (server.js lines 357-361 and 380-383). -/
def insertPlace (m : List Place) (p : Place) : List Place :=
  if truthyAddr p.address && !hasAddr m p.address then m ++ [p] else m

/-- forEach of the insertion loop over a list of search results. -/
def insertAll (m : List Place) (ps : List Place) : List Place :=
  ps.foldl insertPlace m

/-! ## Candidate location finder (server.js lines 345-387, identical to
the revision in src/unnamed/part_000 lines 45-87)

The finder is parameterized by the search oracle: the function from
(lat, lng, radius, keyword) to the place list that performGoogleSearch
returns (empty on provider failure, by its error containment). -/

/-- The type of the nearby-search adapter as seen by the finder. -/
def SearchOracle : Type := ℚ → ℚ → Nat → String → List Place

/-- The food backup keyword (server.js line 370). -/
def foodKeywordFor (isAdult : Bool) : String :=
  if isAdult then "restaurant OR gastropub" else "restaurant OR cafe"

/-- The ambiance backup keyword (server.js line 375). -/
def ambianceKeywordFor (isAdult : Bool) : String :=
  if isAdult then "lounge OR rooftop OR scenic" else "park OR dessert OR scenic"

/-- Step 1 of findDateLocations (server.js lines 350-361): the primary
vibe-first search, deduplicated into the candidate map. -/
def primaryCandidates (oracle : SearchOracle) (lat lng : ℚ)
    (dateVibe transportMode : String) (isAdult : Bool) : List Place :=
  let radius := getRadiusFromTransport transportMode
  let vibe := jsToLower dateVibe
  let primaryKeyword := getKeywordFromVibe vibe isAdult
  insertAll [] (oracle lat lng radius primaryKeyword)

/-- The backup searches pushed in server.js lines 366-376: a food search
unless the vibe is already foodie, then always an ambiance search. The
list order is the order the promises are pushed, which is the order
Promise.all returns their results in. -/
def backupKeywords (vibe : String) (isAdult : Bool) : List String :=
  (if vibe = "foodie" then [] else [foodKeywordFor isAdult]) ++ [ambianceKeywordFor isAdult]

/-- The candidate map after the sufficiency check and the conditional
backup merge (server.js lines 363-384): backups run only when the
primary map has fewer than 6 entries, and their flattened results are
merged with the same first-write-wins insertion. -/
def findCandidateMap (oracle : SearchOracle) (lat lng : ℚ)
    (dateVibe transportMode : String) (isAdult : Bool) : List Place :=
  let radius := getRadiusFromTransport transportMode
  let vibe := jsToLower dateVibe
  let candidates := primaryCandidates oracle lat lng dateVibe transportMode isAdult
  if candidates.length < 6 then
    insertAll candidates (((backupKeywords vibe isAdult).map fun kw => oracle lat lng radius kw).flatten)
  else
    candidates

/-- The sequence of keywords the finder hands to the search adapter, in
issue order: the primary keyword always, then the backup keywords
exactly when the sufficiency check fails. -/
def findQueries (oracle : SearchOracle) (lat lng : ℚ)
    (dateVibe transportMode : String) (isAdult : Bool) : List String :=
  let vibe := jsToLower dateVibe
  let primaryKeyword := getKeywordFromVibe vibe isAdult
  if (primaryCandidates oracle lat lng dateVibe transportMode isAdult).length < 6 then
    primaryKeyword :: backupKeywords vibe isAdult
  else
    [primaryKeyword]

/-- The return value of findDateLocations (server.js line 386): the map
values in insertion order, truncated to the first 20. -/
def findDateLocations (oracle : SearchOracle) (lat lng : ℚ)
    (dateVibe transportMode : String) (isAdult : Bool) : List Place :=
  (findCandidateMap oracle lat lng dateVibe transportMode isAdult).take 20

/-! ## Plan assembler (server.js lines 440-466, identical to the
revision in src/unnamed/part_001 lines 161-182)

The AI collaborator emits create_date_stop and create_travel_leg calls;
the route partitions them, sorts the stops by stopNumber, and attaches
to each stop the first travel leg whose fromStop equals its stopNumber. -/

/-- A stop draft: the argument payload of a create_date_stop call, per
the createDateStopTool schema. -/
structure Stop where
  stopNumber : Int
  name : String
  description : String
  address : String
  lat : ℚ
  lng : ℚ
  type : String
  startTime : String
  duration : String
deriving DecidableEq

/-- A travel leg draft: the argument payload of a create_travel_leg
call, per the createTravelLegTool schema. -/
structure TravelLeg where
  fromStop : Int
  toStop : Int
  transportMode : String
  travelTime : String
deriving DecidableEq

/-- The travelToNext payload attached to a stop (server.js line 460). -/
structure TravelInfo where
  transportMode : String
  travelTime : String
deriving DecidableEq

/-- A stop of the final plan: the stop draft spread together with its
optional travelToNext field. -/
structure FinalStop where
  stop : Stop
  travelToNext : Option TravelInfo
deriving DecidableEq

instance : DecidableRel fun a b : Stop => a.stopNumber ≤ b.stopNumber :=
  fun a b => Int.decLe a.stopNumber b.stopNumber

instance : IsTotal Stop fun a b : Stop => a.stopNumber ≤ b.stopNumber :=
  ⟨fun a b => Int.le_total a.stopNumber b.stopNumber⟩

instance : IsTrans Stop fun a b : Stop => a.stopNumber ≤ b.stopNumber :=
  ⟨fun _ _ _ h1 h2 => le_trans h1 h2⟩

/-- stops.sort((a, b) => a.stopNumber - b.stopNumber) from server.js
line 456. The ECMAScript specification requires Array.prototype.sort to
be stable and, with this comparator, ascending in stopNumber; a stable
insertion sort realizes exactly that semantics. -/
def jsSortStops (stops : List Stop) : List Stop :=
  stops.insertionSort fun a b => a.stopNumber ≤ b.stopNumber

/-- The body of the finalStops map (server.js lines 458-461): look up
the first travel leg whose fromStop equals this stop and attach its
payload, or null when none exists. -/
def attachLeg (travelLegs : List TravelLeg) (stop : Stop) : FinalStop :=
  match travelLegs.find? fun leg => decide (leg.fromStop = stop.stopNumber) with
  | some leg => { stop := stop, travelToNext := some { transportMode := leg.transportMode, travelTime := leg.travelTime } }
  | none => { stop := stop, travelToNext := none }

/-- finalStops from server.js lines 456-461: the sorted stops, each with
its travel leg attached. -/
def finalStops (stops : List Stop) (travelLegs : List TravelLeg) : List FinalStop :=
  (jsSortStops stops).map (attachLeg travelLegs)

/-! ## JSON-blob mode sanitization (first server.js revision, lines
165-183)

In the JSON-blob revision the AI answer is one JSON object with a stops
array; each stop is mapped through coordinate coercion and a type
fallback and then filtered by isNaN on both coordinates, and the result
is sent with status 200 unconditionally. -/

/-- A raw stop object from the parsed JSON blob: every field is an
arbitrary JSON value. -/
structure RawStop where
  name : JVal
  description : JVal
  address : JVal
  lat : JVal
  lng : JVal
  type : JVal
deriving DecidableEq

/-- A sanitized stop: the spread of the raw stop with lat and lng
replaced by their parseFloat coercions and type defaulted. -/
structure SanStop where
  name : JVal
  description : JVal
  address : JVal
  lat : JsNum
  lng : JsNum
  type : JVal
deriving DecidableEq

/-- The map body in server.js lines 175-179: spread the stop, coerce the
coordinates with parseFloat, and default the type to Activity when the
type field is falsy. -/
def coerceStop (s : RawStop) : SanStop :=
  { name := s.name
    description := s.description
    address := s.address
    lat := parseFloat s.lat
    lng := parseFloat s.lng
    type := if jsTruthy s.type then s.type else .jstr "Activity" }

/-- sanitizedPlan.stops from server.js lines 175-180: map the coercion
over the stops, then keep exactly the stops whose two coordinates are
both non-NaN. -/
def sanitizeStops (stops : List RawStop) : List SanStop :=
  (stops.map coerceStop).filter fun s => !jsIsNaN s.lat && !jsIsNaN s.lng

/-- Outcome of the sanitize-and-respond stage: a 200 response carrying
the plan, or an error response. -/
inductive StageOutcome where
  | success (stops : List SanStop)
  | error (msg : String)
deriving DecidableEq

/-- Server.js lines 173-183: after JSON parsing succeeds the route
builds sanitizedPlan and immediately responds with status 200. No
branch inspects the filtered stops, so the stage always succeeds, with
whatever stops survived the filter. -/
def respondSanitizedPlan (stops : List RawStop) : StageOutcome :=
  .success (sanitizeStops stops)

/-! ## Curated-mode request validation (server.js lines 416-421,
identical to the first revision at lines 146-151)

The route destructures lat and lng out of req.body.location before the
truthiness check on the required fields; a missing location therefore
throws a TypeError that the catch block reports as a 500. -/

/-- The location object of a request body. -/
structure Loc where
  lat : JVal
  lng : JVal
deriving DecidableEq

/-- The request body of the curated-mode endpoint. The location field is
optional: none models an absent (undefined) location. -/
structure GenPlanRequest where
  location : Option Loc
  dateVibe : JVal
  transportMode : JVal
  isAdult : JVal
deriving DecidableEq

/-- Outcome of the validation prologue of the route handler. -/
inductive RouteOutcome where
  | badRequest (msg : String)
  | serverError (msg : String)
  | proceed (lat lng dateVibe transportMode : JVal)
deriving DecidableEq

/-- The prologue of the route handler (server.js lines 416-421): the
destructuring of location throws into the catch block (a 500 response)
when location is absent; otherwise the four required fields are checked
by JavaScript truthiness and a falsy one yields a 400 response. The 500
message abridges the TypeError text. -/
def validateGeneratePlan (req : GenPlanRequest) : RouteOutcome :=
  match req.location with
  | none => .serverError "TypeError: cannot destructure lat of undefined"
  | some loc =>
    if !jsTruthy loc.lat || !jsTruthy loc.lng || !jsTruthy req.dateVibe || !jsTruthy req.transportMode then
      .badRequest "Missing required fields."
    else
      .proceed loc.lat loc.lng req.dateVibe req.transportMode

/-- The HTTP status carried by each outcome. -/
def statusOf : RouteOutcome → Nat
  | .badRequest _ => 400
  | .serverError _ => 500
  | .proceed _ _ _ _ => 200

/-! ## Concrete data for witnesses -/

/-- A place with the given address and fixed remaining fields. -/
def demoPlace (a : String) : Place :=
  { name := "p", address := some a, lat := 0, lng := 0, type := "Activity" }

/-- An oracle whose every search returns six places with distinct
addresses. -/
def demoOracleSix : SearchOracle :=
  fun _ _ _ _ => [demoPlace "a1", demoPlace "a2", demoPlace "a3", demoPlace "a4", demoPlace "a5", demoPlace "a6"]

/-- An oracle whose every search returns nothing, as performGoogleSearch
does on provider failure. -/
def demoOracleEmpty : SearchOracle := fun _ _ _ _ => []

/-- A stop draft with the given stop number and fixed remaining fields. -/
def demoStop (n : Int) : Stop :=
  { stopNumber := n, name := "s", description := "", address := "", lat := 0, lng := 0,
    type := "Activity", startTime := "18:00", duration := "1 hour" }

/-- A travel leg from stop 1 to stop 2. -/
def demoLeg : TravelLeg :=
  { fromStop := 1, toStop := 2, transportMode := "Walking", travelTime := "15 minutes" }

/-- A second travel leg with the same fromStop as demoLeg but a
different payload. -/
def demoLegDup : TravelLeg :=
  { fromStop := 1, toStop := 3, transportMode := "Driving", travelTime := "99 minutes" }

/-- A raw stop whose lat is the string Infinity: parseFloat yields a
non-finite number that the isNaN filter keeps. -/
def demoInfStop : RawStop :=
  { name := .jundef, description := .jundef, address := .jundef,
    lat := .jstr "Infinity", lng := .jnum 1, type := .jundef }

/-- A raw stop whose lat fails to parse at all: parseFloat yields NaN
and the filter drops the stop. -/
def demoBadStop : RawStop :=
  { name := .jundef, description := .jundef, address := .jundef,
    lat := .jstr "not-a-number", lng := .jnum 1, type := .jundef }

/-- A place whose address collides with demoDupSecond; inserted first. -/
def demoDupFirst : Place :=
  { name := "first", address := some "x", lat := 0, lng := 0, type := "Food" }

/-- A place with the same address as demoDupFirst but different data. -/
def demoDupSecond : Place :=
  { name := "second", address := some "x", lat := 1, lng := 1, type := "Bar" }

/-- A place with an empty address, which the insertion guard drops. -/
def demoEmptyAddr : Place :=
  { name := "empty", address := some "", lat := 0, lng := 0, type := "Food" }

/-! ## Lemmas about the candidate map insertion loop -/

theorem insertAll_cons (m : List Place) (p : Place) (ps : List Place) :
    insertAll m (p :: ps) = insertAll (insertPlace m p) ps := rfl

theorem insertPlace_cases (m : List Place) (p : Place) :
    insertPlace m p = m ∨ insertPlace m p = m ++ [p] := by
  unfold insertPlace
  split
  · exact Or.inr rfl
  · exact Or.inl rfl

/-- Insertion only ever appends: the starting map is a prefix of the
final map. -/
theorem insertAll_suffix (ps : List Place) : ∀ m, ∃ t, insertAll m ps = m ++ t := by
  induction ps with
  | nil => exact fun m => ⟨[], by simp [insertAll]⟩
  | cons p ps ih =>
    intro m
    rw [insertAll_cons]
    rcases ih (insertPlace m p) with ⟨t, ht⟩
    rcases insertPlace_cases m p with h | h
    · exact ⟨t, by rw [ht, h]⟩
    · exact ⟨[p] ++ t, by rw [ht, h, List.append_assoc]⟩

/-- Every record in the map has a truthy address, provided the starting
map satisfies the same invariant. -/
theorem truthy_of_mem_insertAll (ps : List Place) :
    ∀ m, (∀ x ∈ m, truthyAddr x.address = true) →
      ∀ q ∈ insertAll m ps, truthyAddr q.address = true := by
  induction ps with
  | nil =>
    intro m hm q hq
    exact hm q hq
  | cons p ps ih =>
    intro m hm q hq
    rw [insertAll_cons] at hq
    refine ih (insertPlace m p) ?_ q hq
    intro x hx
    unfold insertPlace at hx
    split at hx
    · rename_i hcond
      simp only [Bool.and_eq_true] at hcond
      rcases List.mem_append.mp hx with h | h
      · exact hm x h
      · simp only [List.mem_singleton] at h
        subst h
        exact hcond.1
    · exact hm x hx

/-- Membership in the map after an insertion run comes from the starting
map or from the inserted list. -/
theorem mem_insertAll (ps : List Place) :
    ∀ m, ∀ q ∈ insertAll m ps, q ∈ m ∨ q ∈ ps := by
  induction ps with
  | nil =>
    intro m q hq
    exact Or.inl hq
  | cons p ps ih =>
    intro m q hq
    rw [insertAll_cons] at hq
    rcases ih (insertPlace m p) q hq with h | h
    · rcases insertPlace_cases m p with he | he <;> rw [he] at h
      · exact Or.inl h
      · rcases List.mem_append.mp h with h1 | h1
        · exact Or.inl h1
        · simp only [List.mem_singleton] at h1
          exact Or.inr (h1 ▸ List.mem_cons_self p ps)
    · exact Or.inr (List.mem_cons_of_mem p h)

/-- The addresses in the map are pairwise distinct, provided the
starting map has pairwise distinct addresses. -/
theorem keysNodup_insertAll (ps : List Place) :
    ∀ m, (m.map Place.address).Nodup → ((insertAll m ps).map Place.address).Nodup := by
  induction ps with
  | nil =>
    intro m hm
    exact hm
  | cons p ps ih =>
    intro m hm
    rw [insertAll_cons]
    refine ih (insertPlace m p) ?_
    unfold insertPlace
    split
    · rename_i hcond
      simp only [Bool.and_eq_true, Bool.not_eq_true'] at hcond
      have hnot : p.address ∉ m.map Place.address := by
        intro hmem
        rcases List.mem_map.mp hmem with ⟨x, hx, hxa⟩
        have : hasAddr m p.address = true := by
          unfold hasAddr
          rw [List.any_eq_true]
          exact ⟨x, hx, by simp [hxa]⟩
        rw [this] at hcond
        exact Bool.noConfusion hcond.2
      rw [List.map_append]
      refine List.Nodup.append hm (List.nodup_singleton _) ?_
      intro x hx hx1
      simp only [List.map_cons, List.map_nil, List.mem_singleton] at hx1
      exact hnot (hx1 ▸ hx)
    · exact hm

/-- First write wins: as long as the key is not yet in the map, looking
the key up after a run of insertions finds exactly the first record of
the inserted list carrying that address. -/
theorem find?_insertAll (ps : List Place) :
    ∀ m (a : Option String), truthyAddr a = true → hasAddr m a = false →
      (insertAll m ps).find? (fun q => decide (q.address = a)) =
        ps.find? (fun q => decide (q.address = a)) := by
  induction ps with
  | nil =>
    intro m a _ hhas
    simp only [insertAll, List.foldl_nil, List.find?_nil]
    rw [List.find?_eq_none]
    intro x hx
    simp only [decide_eq_true_eq]
    intro hxa
    unfold hasAddr at hhas
    rw [List.any_eq_false] at hhas
    exact hhas x hx (by simp [hxa])
  | cons p ps ih =>
    intro m a hta hhas
    rw [insertAll_cons]
    by_cases hpa : p.address = a
    · have hins : insertPlace m p = m ++ [p] := by
        unfold insertPlace
        rw [if_pos]
        rw [hpa, hta, hhas]
        rfl
      have hm : m.find? (fun q => decide (q.address = a)) = none := by
        rw [List.find?_eq_none]
        intro x hx
        simp only [decide_eq_true_eq]
        intro hxa
        unfold hasAddr at hhas
        rw [List.any_eq_false] at hhas
        exact hhas x hx (by simp [hxa])
      rcases insertAll_suffix ps (m ++ [p]) with ⟨t, ht⟩
      rw [hins, ht, List.append_assoc, List.find?_append, hm, Option.none_or,
        List.find?_append, List.find?_cons_of_pos _ (by simp [hpa]),
        List.find?_cons_of_pos _ (by simp [hpa])]
      rfl
    · have hstep : hasAddr (insertPlace m p) a = false := by
        rcases insertPlace_cases m p with he | he <;> rw [he]
        · exact hhas
        · unfold hasAddr at hhas ⊢
          rw [List.any_append, hhas]
          simp [hpa]
      rw [ih (insertPlace m p) a hta hstep, List.find?_cons_of_neg _ (by simp [hpa])]

/-! ## Claim theorems -/

/-- C1: for every call to the candidate location finder, if the primary
vibe-keyword search, after address-keyed deduplication, yields at least
6 distinct entries, then no supplemental (food or ambiance) search is
issued: the finder hands exactly one query to the search adapter (the
primary vibe keyword), and the returned places come from the primary
search alone. -/
theorem c1_sufficiency_gate (oracle : SearchOracle) (lat lng : ℚ)
    (dateVibe transportMode : String) (isAdult : Bool)
    (h : 6 ≤ (primaryCandidates oracle lat lng dateVibe transportMode isAdult).length) :
    findQueries oracle lat lng dateVibe transportMode isAdult =
      [getKeywordFromVibe (jsToLower dateVibe) isAdult] ∧
    (findQueries oracle lat lng dateVibe transportMode isAdult).length = 1 ∧
    findDateLocations oracle lat lng dateVibe transportMode isAdult =
      (primaryCandidates oracle lat lng dateVibe transportMode isAdult).take 20 := by
  have hlt : ¬ (primaryCandidates oracle lat lng dateVibe transportMode isAdult).length < 6 :=
    Nat.not_lt.mpr h
  refine ⟨?_, ?_, ?_⟩
  · simp only [findQueries, if_neg hlt]
  · simp only [findQueries, if_neg hlt, List.length_singleton]
  · simp only [findDateLocations, findCandidateMap, if_neg hlt]

/-- Witness for C1: an oracle returning six distinctly-addressed places
satisfies the sufficiency gate and only the primary query is issued. -/
theorem c1_sufficiency_gate_witness :
    6 ≤ (primaryCandidates demoOracleSix 19 72 "Casual" "Walking" false).length ∧
    findQueries demoOracleSix 19 72 "Casual" "Walking" false =
      [getKeywordFromVibe (jsToLower "Casual") false] :=
  ⟨by decide, (c1_sufficiency_gate demoOracleSix 19 72 "Casual" "Walking" false (by decide)).1⟩

/-- C2: for every input whose vibe equals foodie case-insensitively, the
finder never issues the food-keyword supplemental search, even when the
primary search produced fewer than 6 unique addresses; the ambiance
supplemental search still runs in that sparse case. -/
theorem c2_foodie_skip (oracle : SearchOracle) (lat lng : ℚ)
    (dateVibe transportMode : String) (isAdult : Bool)
    (h : jsToLower dateVibe = "foodie") :
    foodKeywordFor isAdult ∉ findQueries oracle lat lng dateVibe transportMode isAdult ∧
    ((primaryCandidates oracle lat lng dateVibe transportMode isAdult).length < 6 →
      ambianceKeywordFor isAdult ∈ findQueries oracle lat lng dateVibe transportMode isAdult) := by
  constructor
  · intro hmem
    simp only [findQueries, h, backupKeywords, if_pos rfl, List.nil_append] at hmem
    split at hmem
    · rcases List.mem_cons.mp hmem with h1 | h1
      · cases isAdult <;> exact absurd h1 (by decide)
      · rcases List.mem_cons.mp h1 with h2 | h2
        · cases isAdult <;> exact absurd h2 (by decide)
        · simp at h2
    · rcases List.mem_cons.mp hmem with h1 | h1
      · cases isAdult <;> exact absurd h1 (by decide)
      · simp at h1
  · intro hlt
    simp only [findQueries, h, backupKeywords, if_pos rfl, List.nil_append, if_pos hlt]
    exact List.mem_cons_of_mem _ (List.mem_cons_self _ _)

/-- Witness for C2: with vibe Foodie and an empty (sparse) primary
search, the food query is absent and the ambiance query present. -/
theorem c2_foodie_skip_witness :
    foodKeywordFor false ∉ findQueries demoOracleEmpty 19.2 72.9 "Foodie" "Walking" false ∧
    ambianceKeywordFor false ∈ findQueries demoOracleEmpty 19.2 72.9 "Foodie" "Walking" false :=
  ⟨(c2_foodie_skip demoOracleEmpty 19.2 72.9 "Foodie" "Walking" false (by decide)).1,
   (c2_foodie_skip demoOracleEmpty 19.2 72.9 "Foodie" "Walking" false (by decide)).2 (by decide)⟩

/-- C3: the candidate location finder never returns more than 20
entries; the entries returned are exactly the first 20 of the candidate
map in insertion order; and the deduplicated primary-search results sit
ahead of every supplemental result in that insertion order. -/
theorem c3_truncation (oracle : SearchOracle) (lat lng : ℚ)
    (dateVibe transportMode : String) (isAdult : Bool) :
    (findDateLocations oracle lat lng dateVibe transportMode isAdult).length ≤ 20 ∧
    findDateLocations oracle lat lng dateVibe transportMode isAdult =
      (findCandidateMap oracle lat lng dateVibe transportMode isAdult).take 20 ∧
    ∃ supplemental,
      findCandidateMap oracle lat lng dateVibe transportMode isAdult =
        primaryCandidates oracle lat lng dateVibe transportMode isAdult ++ supplemental := by
  refine ⟨List.length_take_le 20 _, rfl, ?_⟩
  simp only [findCandidateMap]
  split
  · exact insertAll_suffix _ _
  · exact ⟨[], (List.append_nil _).symm⟩

/-- C4: throughout candidate-set construction, a record with a missing
or empty address is never inserted, the addresses in the set are
pairwise distinct, and looking up any truthy address finds exactly the
first record of the inserted sequence carrying it (first write wins,
regardless of later data); untruthy addresses are never present. -/
theorem c4_dedup_first_write_wins (ps : List Place) (a : Option String) :
    (∀ p ∈ insertAll ([] : List Place) ps, truthyAddr p.address = true) ∧
    ((insertAll ([] : List Place) ps).map Place.address).Nodup ∧
    (insertAll ([] : List Place) ps).find? (fun q => decide (q.address = a)) =
      (if truthyAddr a then ps.find? (fun q => decide (q.address = a)) else none) := by
  refine ⟨truthy_of_mem_insertAll ps [] (by simp), keysNodup_insertAll ps [] (by simp), ?_⟩
  by_cases hta : truthyAddr a = true
  · rw [if_pos hta]
    exact find?_insertAll ps [] a hta rfl
  · rw [if_neg hta, List.find?_eq_none]
    intro x hx
    simp only [decide_eq_true_eq]
    intro hxa
    exact hta (hxa ▸ truthy_of_mem_insertAll ps [] (by simp) x hx)

/-- Witness for C4: with two records sharing address x (the second with
different data) and one empty-addressed record, the set keeps exactly
the first record under key x, and its keys are pairwise distinct. -/
theorem c4_dedup_first_write_wins_witness :
    (insertAll ([] : List Place) [demoDupFirst, demoEmptyAddr, demoDupSecond]).find?
        (fun q => decide (q.address = some "x")) = some demoDupFirst ∧
    ((insertAll ([] : List Place) [demoDupFirst, demoEmptyAddr, demoDupSecond]).map
        Place.address).Nodup :=
  ⟨((c4_dedup_first_write_wins [demoDupFirst, demoEmptyAddr, demoDupSecond] (some "x")).2.2).trans
      (by decide),
   (c4_dedup_first_write_wins [demoDupFirst, demoEmptyAddr, demoDupSecond] (some "x")).2.1⟩

/-! ## Lemmas about the plan assembler -/

theorem attachLeg_stop (legs : List TravelLeg) (s : Stop) : (attachLeg legs s).stop = s := by
  unfold attachLeg
  split <;> rfl

theorem attachLeg_travelToNext (legs : List TravelLeg) (s : Stop) :
    (attachLeg legs s).travelToNext =
      (legs.find? fun leg => decide (leg.fromStop = s.stopNumber)).map
        fun leg => { transportMode := leg.transportMode, travelTime := leg.travelTime } := by
  unfold attachLeg
  cases h : legs.find? fun leg => decide (leg.fromStop = s.stopNumber) <;> simp [h]

/-- C5: the plan assembler sorts the collected stops ascending by
stopNumber, it is a permutation of the input, it is stable (any pair in
input order whose stop numbers are already ascending keeps its relative
order), and on the spec example [3,1,2] it outputs [1,2,3]. -/
theorem c5_assembler_sort (stops : List Stop) (a b : Stop) :
    List.Sorted (fun x y : Stop => x.stopNumber ≤ y.stopNumber) (jsSortStops stops) ∧
    List.Perm (jsSortStops stops) stops ∧
    (a.stopNumber ≤ b.stopNumber → [a, b].Sublist stops → [a, b].Sublist (jsSortStops stops)) ∧
    jsSortStops [demoStop 3, demoStop 1, demoStop 2] = [demoStop 1, demoStop 2, demoStop 3] := by
  refine ⟨List.sorted_insertionSort _ stops, List.perm_insertionSort _ stops, ?_, by decide⟩
  intro hab hsub
  exact List.pair_sublist_insertionSort hab hsub

/-- Witness for C5: in the [3,1,2] example the ascending pair (1,2)
keeps its relative order in the sorted output. -/
theorem c5_assembler_sort_witness :
    [demoStop 1, demoStop 2].Sublist (jsSortStops [demoStop 3, demoStop 1, demoStop 2]) :=
  (c5_assembler_sort [demoStop 3, demoStop 1, demoStop 2] (demoStop 1) (demoStop 2)).2.2.1
    (by decide) (List.Sublist.cons _ (List.Sublist.refl _))

/-- C6: for each assembled stop, the travel leg whose fromStop equals
the stop number is attached as travelToNext whatever its position in
the leg list (stated via uniqueness of the matching leg), and when no
leg matches, travelToNext is null rather than an error. -/
theorem c6_travel_leg_attachment (stops : List Stop) (legs : List TravelLeg) (fs : FinalStop)
    (hfs : fs ∈ finalStops stops legs) :
    ((∀ l ∈ legs, l.fromStop ≠ fs.stop.stopNumber) → fs.travelToNext = none) ∧
    (∀ l ∈ legs, l.fromStop = fs.stop.stopNumber →
      (∀ l2 ∈ legs, l2.fromStop = fs.stop.stopNumber → l2 = l) →
      fs.travelToNext =
        some { transportMode := l.transportMode, travelTime := l.travelTime }) := by
  rcases List.mem_map.mp hfs with ⟨s, _, rfl⟩
  rw [attachLeg_stop, attachLeg_travelToNext]
  constructor
  · intro hnone
    have h : legs.find? (fun leg => decide (leg.fromStop = s.stopNumber)) = none := by
      rw [List.find?_eq_none]
      intro x hx
      simp only [decide_eq_true_eq]
      exact hnone x hx
    rw [h]
    rfl
  · intro l hl hfl huniq
    rcases hm : legs.find? (fun leg => decide (leg.fromStop = s.stopNumber)) with _ | m
    · exact absurd hfl (by simpa using List.find?_eq_none.mp hm l hl)
    · have hmem := List.mem_of_find?_eq_some hm
      have hpm := List.find?_some hm
      simp only [decide_eq_true_eq] at hpm
      rw [hm, huniq m hmem hpm]
      rfl

/-- Witness for C6: the leg from stop 1 is attached to stop 1 of the
assembled demo plan. -/
theorem c6_travel_leg_attachment_witness :
    (attachLeg [demoLeg] (demoStop 1)).travelToNext =
      some { transportMode := "Walking", travelTime := "15 minutes" } :=
  (c6_travel_leg_attachment [demoStop 1, demoStop 2] [demoLeg]
      (attachLeg [demoLeg] (demoStop 1)) (by decide)).2 demoLeg (by decide)
    (by decide) (by decide)

/-- C10: when several travel legs share the same fromStop, the assembler
attaches the first such leg in call order; every later duplicate is
silently ignored (the suffix after the first match is unconstrained). -/
theorem c10_duplicate_legs_first_wins (pre post : List TravelLeg) (a : TravelLeg) (s : Stop)
    (ha : a.fromStop = s.stopNumber) (hpre : ∀ l ∈ pre, l.fromStop ≠ s.stopNumber) :
    (attachLeg (pre ++ a :: post) s).travelToNext =
      some { transportMode := a.transportMode, travelTime := a.travelTime } := by
  rw [attachLeg_travelToNext]
  have hp : pre.find? (fun leg => decide (leg.fromStop = s.stopNumber)) = none := by
    rw [List.find?_eq_none]
    intro x hx
    simp only [decide_eq_true_eq]
    exact hpre x hx
  rw [List.find?_append, hp, Option.none_or, List.find?_cons_of_pos _ (by simp [ha])]
  rfl

/-- Witness for C10: with two legs both leaving stop 1, the payload of
the first one is attached and the duplicate is ignored. -/
theorem c10_duplicate_legs_first_wins_witness :
    (attachLeg [demoLeg, demoLegDup] (demoStop 1)).travelToNext =
      some { transportMode := "Walking", travelTime := "15 minutes" } :=
  c10_duplicate_legs_first_wins [] [demoLegDup] demoLeg (demoStop 1) rfl (by simp)

/-- Counterexample to C7 as stated: the claim predicts that a stop whose
lat is the string Infinity (which does not parse to a finite number) is
dropped and that, all stops being dropped, the request is surfaced as a
failure. The code filters with isNaN only, so it keeps the stop, and it
responds with success. -/
theorem c7_counterexample :
    respondSanitizedPlan [demoInfStop] =
      .success [{ name := .jundef, description := .jundef, address := .jundef,
                  lat := .inf, lng := .fin 1, type := .jstr "Activity" }] ∧
    jsIsFinite JsNum.inf = false :=
  ⟨by decide, rfl⟩

/-- C7 as amended: in JSON-blob mode each stop has lat/lng coerced with
parseFloat and is dropped exactly when either coordinate is NaN (an
infinite coordinate is kept); the stage never surfaces a failure — the
request succeeds with the remaining stops even when all stops are
dropped. -/
theorem c7_sanitization_amended (stops : List RawStop) (msg : String) :
    respondSanitizedPlan stops ≠ .error msg ∧
    respondSanitizedPlan stops = .success (sanitizeStops stops) ∧
    (∀ s ∈ sanitizeStops stops, jsIsNaN s.lat = false ∧ jsIsNaN s.lng = false) ∧
    (∀ r ∈ stops, (coerceStop r ∈ sanitizeStops stops ↔
        (jsIsNaN (parseFloat r.lat) = false ∧ jsIsNaN (parseFloat r.lng) = false))) := by
  refine ⟨by simp [respondSanitizedPlan], rfl, ?_, ?_⟩
  · intro s hs
    have h := (List.mem_filter.mp hs).2
    simp only [Bool.and_eq_true, Bool.not_eq_true'] at h
    exact h
  · intro r hr
    constructor
    · intro hmem
      have h := (List.mem_filter.mp hmem).2
      simp only [Bool.and_eq_true, Bool.not_eq_true'] at h
      exact h
    · intro h
      refine List.mem_filter.mpr ⟨List.mem_map_of_mem coerceStop hr, ?_⟩
      simp only [Bool.and_eq_true, Bool.not_eq_true']
      exact h

/-- Witness for C7 as amended: a plan whose only stop has an unparseable
lat ends with every stop dropped, and the stage still succeeds (with the
empty stop list) instead of surfacing an error. -/
theorem c7_sanitization_amended_witness :
    respondSanitizedPlan [demoBadStop] ≠ .error "The plan had no valid locations." ∧
    respondSanitizedPlan [demoBadStop] = .success (sanitizeStops [demoBadStop]) ∧
    sanitizeStops [demoBadStop] = [] :=
  ⟨(c7_sanitization_amended [demoBadStop] "The plan had no valid locations.").1,
   (c7_sanitization_amended [demoBadStop] "The plan had no valid locations.").2.1,
   by decide⟩

/-- C8: for every transport-mode string, getRadiusFromTransport returns
a positive integer: 2000 for walking, 5000 for transit, 10000 for
driving, matched case-insensitively, and exactly the default 3000 for
every other input; it never fails on unrecognized input. -/
theorem c8_radius_total (s : String) :
    0 < getRadiusFromTransport s ∧
    (jsToLower s = "walking" → getRadiusFromTransport s = 2000) ∧
    (jsToLower s = "transit" → getRadiusFromTransport s = 5000) ∧
    (jsToLower s = "driving" → getRadiusFromTransport s = 10000) ∧
    (jsToLower s ≠ "walking" → jsToLower s ≠ "transit" → jsToLower s ≠ "driving" →
      getRadiusFromTransport s = 3000) := by
  refine ⟨?_, ?_, ?_, ?_, ?_⟩
  · simp only [getRadiusFromTransport]
    split_ifs <;> norm_num
  · intro h
    simp only [getRadiusFromTransport, h]
    rfl
  · intro h
    simp only [getRadiusFromTransport, h]
    rfl
  · intro h
    simp only [getRadiusFromTransport, h]
    rfl
  · intro h1 h2 h3
    simp only [getRadiusFromTransport]
    rw [if_neg h1, if_neg h2, if_neg h3]

/-- Witness for C8: each table row case-insensitively, and an
unrecognized mode falling back to the positive default. -/
theorem c8_radius_total_witness :
    getRadiusFromTransport "WALKING" = 2000 ∧ getRadiusFromTransport "Transit" = 5000 ∧
    getRadiusFromTransport "driving" = 10000 ∧ getRadiusFromTransport "Bicycle" = 3000 ∧
    0 < getRadiusFromTransport "Bicycle" :=
  ⟨(c8_radius_total "WALKING").2.1 (by decide),
   (c8_radius_total "Transit").2.2.1 (by decide),
   (c8_radius_total "driving").2.2.2.1 (by decide),
   (c8_radius_total "Bicycle").2.2.2.2 (by decide) (by decide) (by decide),
   (c8_radius_total "Bicycle").1⟩

/-- C9: the curated-mode endpoint validates required fields by
JavaScript truthiness: every request whose location carries lat = 0 or
lng = 0 (valid coordinates on the equator or prime meridian) is
rejected with status 400 and the message Missing required fields.,
whatever the other fields hold, while every request omitting the
location object entirely throws during destructuring and is reported
with status 500, not 400. -/
theorem c9_truthiness_validation (req : GenPlanRequest) :
    (∀ loc, req.location = some loc →
      (loc.lat = JVal.jnum 0 ∨ loc.lng = JVal.jnum 0) →
      validateGeneratePlan req = .badRequest "Missing required fields." ∧
      statusOf (validateGeneratePlan req) = 400) ∧
    (req.location = none →
      validateGeneratePlan req =
        .serverError "TypeError: cannot destructure lat of undefined" ∧
      statusOf (validateGeneratePlan req) = 500 ∧
      statusOf (validateGeneratePlan req) ≠ 400) := by
  constructor
  · intro loc hloc h0
    have hzero : jsTruthy (JVal.jnum 0) = false := by decide
    have hcond : (!jsTruthy loc.lat || !jsTruthy loc.lng || !jsTruthy req.dateVibe ||
        !jsTruthy req.transportMode) = true := by
      rcases h0 with h | h <;> rw [h, hzero] <;> simp
    have hval : validateGeneratePlan req = .badRequest "Missing required fields." := by
      simp only [validateGeneratePlan, hloc]
      rw [if_pos hcond]
    exact ⟨hval, by rw [hval]; rfl⟩
  · intro hnone
    have hval : validateGeneratePlan req =
        .serverError "TypeError: cannot destructure lat of undefined" := by
      simp only [validateGeneratePlan, hnone]
    refine ⟨hval, by rw [hval]; rfl, by rw [hval]; decide⟩

/-- Witness for C9: a request with lat = 0, one with lng = 0, and one
with no location object at all. -/
theorem c9_truthiness_validation_witness :
    validateGeneratePlan
        { location := some { lat := .jnum 0, lng := .jnum 72 },
          dateVibe := .jstr "Romantic", transportMode := .jstr "Walking",
          isAdult := .jbool false } =
      .badRequest "Missing required fields." ∧
    validateGeneratePlan
        { location := some { lat := .jnum 19, lng := .jnum 0 },
          dateVibe := .jstr "Romantic", transportMode := .jstr "Walking",
          isAdult := .jbool false } =
      .badRequest "Missing required fields." ∧
    statusOf (validateGeneratePlan
        { location := none,
          dateVibe := .jstr "Romantic", transportMode := .jstr "Walking",
          isAdult := .jbool false }) = 500 :=
  ⟨((c9_truthiness_validation
        { location := some { lat := .jnum 0, lng := .jnum 72 },
          dateVibe := .jstr "Romantic", transportMode := .jstr "Walking",
          isAdult := .jbool false }).1
      { lat := .jnum 0, lng := .jnum 72 } rfl (Or.inl rfl)).1,
   ((c9_truthiness_validation
        { location := some { lat := .jnum 19, lng := .jnum 0 },
          dateVibe := .jstr "Romantic", transportMode := .jstr "Walking",
          isAdult := .jbool false }).1
      { lat := .jnum 19, lng := .jnum 0 } rfl (Or.inr rfl)).1,
   ((c9_truthiness_validation
        { location := none,
          dateVibe := .jstr "Romantic", transportMode := .jstr "Walking",
          isAdult := .jbool false }).2 rfl).2.1⟩

end DateMapz
